import Mathlib

/-!
Verification of the cloudinary storage adapter (src/cloudinary_storage/base.py and
src/cloudinary_storage/storage.py) against its natural-language specification.

Modelling conventions:
- A Python `str` is modelled as a list of characters (`PyStr`), the honest model of a
  Python string as a sequence of code points.  `str.split(sep)` with a one-character
  separator is modelled by `py_split`, `str.lower()` by `lower`, slicing `s[:k]` by
  `List.take`, `str.startswith` by `List.isPrefixOf`.
- Network effects are modelled by explicit function parameters: `get_url` stands for the
  cloudinary SDK URL construction and `head` for `requests.head`, returning a
  `HeadResponse` (status code plus the headers the code reads).
- Python exceptions (`KeyError`, `IndexError`, `requests.HTTPError`, `ValueError`,
  `ImproperlyConfigured`) are modelled with `Except`.
- Framework (Django) methods that the code merely borrows (`HashedFilesMixin.file_hash`,
  `HashedFilesMixin.clean_name`) are universally quantified function parameters where the
  claims do not depend on their body.
-/

/-- A Python string as a sequence of characters. -/
abbrev PyStr := List Char

/-- Coerce a Lean string literal into the Python-string model. -/
def pystr (s : String) : PyStr := s.data

/-- Python `str.lower()` (code points are lowered pointwise). -/
def lower (s : PyStr) : PyStr := s.map Char.toLower

/-- Python `str.split(sep)` for a one-character separator: `"a.b".split "." = ["a","b"]`,
`"".split "." = [""]`, `"a.".split "." = ["a", ""]`. -/
def py_split (sep : Char) : PyStr → List PyStr
  | [] => [[]]
  | c :: rest =>
    if c = sep then [] :: py_split sep rest
    else
      match py_split sep rest with
      | [] => [[c]]
      | g :: gs => (c :: g) :: gs

/-- `BaseStorage.RESOURCE_TYPES['IMAGE']`. -/
def RESOURCE_TYPE_IMAGE : PyStr := pystr "image"

/-- `BaseStorage.RESOURCE_TYPES['RAW']`. -/
def RESOURCE_TYPE_RAW : PyStr := pystr "raw"

/-- `BaseStorage.RESOURCE_TYPES['VIDEO']`. -/
def RESOURCE_TYPE_VIDEO : PyStr := pystr "video"

/-- `StaticCloudinaryStorage._get_file_extension(name)`:
`substrings = name.split('.')`; one substring means no extension (`None`),
otherwise the last substring, lowercased. -/
def get_file_extension (name : PyStr) : Option PyStr :=
  let substrings := py_split '.' name
  if substrings.length = 1 then none
  else some (lower (substrings.getLastD []))

/-- Default value of the `static_images_extensions` setting
(`base.py`, `get_default_settings`). -/
def static_images_extensions_default : List PyStr :=
  [pystr "jpg", pystr "jpe", pystr "jpeg", pystr "jpc", pystr "jp2", pystr "j2k",
   pystr "wdp", pystr "jxr", pystr "hdp", pystr "png", pystr "gif", pystr "webp",
   pystr "bmp", pystr "tif", pystr "tiff", pystr "ico"]

/-- Default value of the `static_videos_extensions` setting
(`base.py`, `get_default_settings`). -/
def static_videos_extensions_default : List PyStr :=
  [pystr "mp4", pystr "webm", pystr "flv", pystr "mov", pystr "ogv", pystr "3gp",
   pystr "3g2", pystr "wmv", pystr "mpeg", pystr "flv", pystr "mkv", pystr "avi"]

/-- `StaticCloudinaryStorage._get_resource_type(name)`, parameterized by the configured
`static_images_extensions` and `static_videos_extensions` lists.  The adapter sets
`self.RESOURCE_TYPE = RESOURCE_TYPES['RAW']` in `__init__`, so the fallback is raw. -/
def get_resource_type (imgs vids : List PyStr) (name : PyStr) : PyStr :=
  match get_file_extension name with
  | none => RESOURCE_TYPE_RAW
  | some extension =>
    if extension ∈ imgs then RESOURCE_TYPE_IMAGE
    else if extension ∈ vids then RESOURCE_TYPE_VIDEO
    else RESOURCE_TYPE_RAW

/-- `StaticCloudinaryStorage._remove_extension_for_non_raw_file(name)`.
In the source the guard is `file_resource_type is None or file_resource_type ==
self.RESOURCE_TYPE`; `_get_resource_type` never returns `None`, so only the comparison
with the raw type matters.  The strip `name[:-len(extension) - 1]` keeps all but the
last `len(extension) + 1` characters. -/
def remove_extension_for_non_raw_file (imgs vids : List PyStr) (name : PyStr) : PyStr :=
  let file_resource_type := get_resource_type imgs vids name
  if file_resource_type = RESOURCE_TYPE_RAW then name
  else
    let extension := (get_file_extension name).getD []
    name.take (name.length - (extension.length + 1))

/-! Base adapter (`base.py`): name normalization, URL-derived HEAD operations. -/

/-- `BaseStorage._normalise_name(name)`: `name.replace(backslash, slash)`. -/
def normalise_name (name : PyStr) : PyStr :=
  name.map (fun c => if c = '\\' then '/' else c)

/-- `BaseStorage._normalize_path(path)`: append a trailing slash when the path is
nonempty and does not already end in one. -/
def normalize_path (path : PyStr) : PyStr :=
  if path ≠ [] ∧ path.getLast? ≠ some '/' then path ++ ['/'] else path

/-- `BaseStorage._prepend_prefix(name)`: strip leading slashes off the configured
prefix, normalize it to end in a slash, and prepend it unless the name already
starts with it.  The configured prefix is the `pfx` parameter. -/
def prepend_prefix (pfx name : PyStr) : PyStr :=
  let p := normalize_path (pfx.dropWhile (fun c => c = '/'))
  if p.isPrefixOf name then name else p ++ name

/-- The response to a `requests.head` call, restricted to the data the code reads:
the status code, the `ETAG` header (if present), and the `content-length` header
(if present, already parsed to an integer as Python `int` would). -/
structure HeadResponse where
  status : Nat
  etag : Option PyStr
  content_length : Option Int

/-- Python exceptions the modelled code can raise. -/
inductive PyErr where
  | keyError : PyErr
  | indexError : PyErr
  | httpError : Nat → PyErr
deriving DecidableEq, Repr

/-- `BaseStorage._get_url(name)`: prepend the prefix, then build the CDN URL through
the cloudinary SDK, modelled by the abstract function `cloudinary_url`. -/
def get_url_of (cloudinary_url : PyStr → PyStr) (pfx name : PyStr) : PyStr :=
  cloudinary_url ( prepend_prefix pfx name)

/-- `BaseStorage.exists(name)`: HEAD the public URL; 404 means absent;
`raise_for_status()` raises `requests.HTTPError` exactly for status codes in
400..599; any remaining status yields `True`. -/
def base_exists (cloudinary_url : PyStr → PyStr) (head : PyStr → HeadResponse)
    (pfx name : PyStr) : Except PyErr Bool :=
  let response := head (get_url_of cloudinary_url pfx name)
  if response.status = 404 then .ok false
  else if 400 ≤ response.status ∧ response.status < 600 then
    .error (.httpError response.status)
  else .ok true

/-- `BaseStorage.size(name)`: HEAD the public URL; on a 200 read
`int(response.headers[content-length])` (a missing header is a `KeyError`);
on any other status return `None`. -/
def base_size (cloudinary_url : PyStr → PyStr) (head : PyStr → HeadResponse)
    (pfx name : PyStr) : Except PyErr (Option Int) :=
  let response := head (get_url_of cloudinary_url pfx name)
  if response.status = 200 then
    match response.content_length with
    | none => .error .keyError
    | some n => .ok (some n)
  else .ok none

/-- `BaseStorage.get_available_name(name, max_length)`: the name unchanged when
`max_length` is `None`, else `name[:max_length]`. -/
def get_available_name (name : PyStr) (max_length : Option Nat) : PyStr :=
  match max_length with
  | none => name
  | some m => name.take m

/-! Static adapter (`storage.py`): upload calls, ETag deduplication, `_save`. -/

/-- An upload request as `StaticCloudinaryStorage._upload` issues it to
`cloudinary.uploader.upload`: the public id, the inferred resource type, the
content, and the `invalidate` flag. -/
structure UploadCall where
  public_id : PyStr
  resource_type : PyStr
  content : PyStr
  invalidate : Bool
deriving DecidableEq, Repr

/-- `StaticCloudinaryStorage._upload(name, content)`: infer the resource type from
the name, strip the extension for non-raw resource types, and upload under that
public id. -/
def static_upload (imgs vids : List PyStr) (name content : PyStr) : UploadCall :=
  { public_id := remove_extension_for_non_raw_file imgs vids name
    resource_type := get_resource_type imgs vids name
    content := content
    invalidate := true }

/-- `BaseStorage._save(name, content)`: normalise the name, prepend the prefix,
upload via `self._upload` (dynamic dispatch: the `upload` parameter), and return
`response[public_id]` from the remote response, modelled by the abstract
`upload_public_id`.  The result pairs that returned public id with the upload
call that was issued. -/
def base_save (upload : PyStr → PyStr → UploadCall)
    (upload_public_id : UploadCall → PyStr) (pfx name content : PyStr) :
    PyStr × UploadCall :=
  let n := prepend_prefix pfx (normalise_name name)
  let call := upload n content
  (upload_public_id call, call)

/-- `StaticCloudinaryStorage._exists_with_etag(name, content)`: HEAD the public URL;
404 means not uploaded; otherwise read the `ETAG` header (a missing header is a
`KeyError`), take `etag.split(quote)[1]` (fewer than two parts is an
`IndexError`), and test whether it starts with `self.file_hash(name, content)`.
`file_hash` is Django code borrowed as a function object, kept abstract. -/
def exists_with_etag (file_hash : PyStr → PyStr → PyStr)
    (cloudinary_url : PyStr → PyStr) (head : PyStr → HeadResponse)
    (pfx name content : PyStr) : Except PyErr Bool :=
  let response := head (get_url_of cloudinary_url pfx name)
  if response.status = 404 then .ok false
  else
    match response.etag with
    | none => .error .keyError
    | some e =>
      match (py_split '"' e)[1]? with
      | none => .error .indexError
      | some etag => .ok ((file_hash name content).isPrefixOf etag)

/-- The outcome of `StaticCloudinaryStorage._save`: the returned name, and the
upload call issued through the base save path, if any. -/
structure StaticSaveResult where
  name : PyStr
  upload : Option UploadCall
deriving DecidableEq, Repr

/-- `StaticCloudinaryStorage._save(name, content)`: clean the name (Django
`HashedFilesMixin.clean_name`, borrowed as a function object, kept abstract);
when `_exists_with_etag` is false, save through `super()._save`, whose
`self._upload` dispatches to `StaticCloudinaryStorage._upload`; in every case
return `self._prepend_prefix(name)`.  The `content.seek(0)` before the upload
only rewinds the file cursor and is not modelled. -/
def static_save (file_hash : PyStr → PyStr → PyStr) (clean_name : PyStr → PyStr)
    (cloudinary_url : PyStr → PyStr) (head : PyStr → HeadResponse)
    (imgs vids : List PyStr) (upload_public_id : UploadCall → PyStr)
    (pfx name content : PyStr) : Except PyErr StaticSaveResult :=
  let n := clean_name name
  match exists_with_etag file_hash cloudinary_url head pfx n content with
  | .error e => .error e
  | .ok true => .ok { name := prepend_prefix pfx n, upload := none }
  | .ok false =>
    let r := base_save (static_upload imgs vids) upload_public_id pfx n content
    .ok { name := prepend_prefix pfx n, upload := some r.2 }

/-! Settings resolver (`base.py`): `get_default_settings` and `BaseStorage.__init__`. -/

/-- A Python value as it occurs among the settings: `None`, a string, a boolean, or
a list of strings (extension lists, excluded paths). -/
inductive PyValue where
  | none_ : PyValue
  | str : String → PyValue
  | bool : Bool → PyValue
  | strList : List String → PyValue
deriving DecidableEq, Repr

/-- Python truthiness for the settings values: `None`, the empty string, `False`
and the empty list are falsy. -/
def PyValue.truthy : PyValue → Bool
  | .none_ => false
  | .str s => s ≠ ""
  | .bool b => b
  | .strList l => l ≠ []

/-- `os.environ.get(name)` as a Python value: `None` when the variable is unset. -/
def env_value (env : String → Option String) (name : String) : PyValue :=
  match env name with
  | none => .none_
  | some s => .str s

/-- The module-level `setting(name, default)` helper: look `name` up in the
`CLOUDINARY_STORAGE` settings dictionary (`user_settings`), falling back to
`default`. -/
def setting (user_settings : List (String × PyValue)) (name : String)
    (default : PyValue) : PyValue :=
  match user_settings.lookup name with
  | some v => v
  | none => default

/-- `BaseStorage.get_default_settings()`: the recognized option names with their
resolved values, layering the settings block over environment variables over
hard-coded defaults.  `base_dir` stands for `settings.BASE_DIR` (the default
manifest root is `os.path.join(BASE_DIR, manifest)`) and `media_url` for
`settings.MEDIA_URL`.  The misspelt key `INVALID_VIDEO_ERROR_NESSAGE` is as in
the source. -/
def get_default_settings (env : String → Option String)
    (user_settings : List (String × PyValue)) (base_dir media_url : String) :
    List (String × PyValue) :=
  [("cloud_name", setting user_settings "CLOUD_NAME" (env_value env "CLOUDINARY_CLOUD_NAME")),
   ("api_key", setting user_settings "API_KEY" (env_value env "CLOUDINARY_API_KEY")),
   ("api_secret", setting user_settings "API_SECRET" (env_value env "CLOUDINARY_API_SECRET")),
   ("secure", setting user_settings "SECURE" (.bool true)),
   ("media_tag", setting user_settings "MEDIA_TAG" (.str "media")),
   ("invalid_video_error_message", setting user_settings "INVALID_VIDEO_ERROR_NESSAGE"
      (.str "Please upload a valid video file.")),
   ("exclude_delete_orphaned_media_paths", setting user_settings "EXCLUDE_DELETE_ORPHANED_MEDIA_PATHS"
      (.strList [])),
   ("static_tag", setting user_settings "STATIC_TAG" (.str "static")),
   ("staticfiles_manifest_root", setting user_settings "STATICFILES_MANIFEST_ROOT"
      (.str (base_dir ++ "/manifest"))),
   ("static_images_extensions", setting user_settings "STATIC_IMAGES_EXTENSIONS"
      (.strList ["jpg", "jpe", "jpeg", "jpc", "jp2", "j2k", "wdp", "jxr", "hdp",
                 "png", "gif", "webp", "bmp", "tif", "tiff", "ico"])),
   ("static_videos_extensions", setting user_settings "STATIC_VIDEOS_EXTENSIONS"
      (.strList ["mp4", "webm", "flv", "mov", "ogv", "3gp", "3g2", "wmv", "mpeg",
                 "flv", "mkv", "avi"])),
   ("magic_file_path", setting user_settings "MAGIC_FILE_PATH" (.str "magic")),
   ("prefix", setting user_settings "PREFIX" (.str media_url))]

/-- The configuration errors `BaseStorage.__init__` can raise
(`django.core.exceptions.ImproperlyConfigured`). -/
inductive ConfigError where
  | invalidSetting : String → String → ConfigError
  | missingCredentials : String → ConfigError
deriving DecidableEq, Repr

/-- The message of the missing-credentials `ImproperlyConfigured` error: it lists
the four ways to supply credentials (the OPTIONS dictionary, the
`CLOUDINARY_STORAGE` settings dictionary, the three `CLOUDINARY_*` environment
variables, and the combined `CLOUDINARY_URL` environment variable). -/
def missing_credentials_message : String :=
  "In order to use cloudinary storage, you need to do ONE of the following: " ++
  "provide OPTIONS dictionary with cloud_name, api_secret, and api_key in the " ++
  "settings under STORAGES[\"default\"] OR provide CLOUDINARY_STORAGE dictionary " ++
  "with CLOUD_NAME, API_SECRET and API_KEY in the settings OR set " ++
  "CLOUDINARY_CLOUD_NAME, CLOUDINARY_API_KEY, CLOUDINARY_API_SECRET environment " ++
  "variables OR set CLOUDINARY_URL environment variable"

/-- The attribute store of an adapter instance: `setattr`/`getattr` on names. -/
def Attrs : Type := String → Option PyValue

/-- `setattr(self, name, value)`. -/
def set_attr (attrs : Attrs) (name : String) (value : PyValue) : Attrs :=
  fun k => if k = name then some value else attrs k

/-- The first loop of `BaseStorage.__init__`: set each default unless the
attribute already exists on the instance. -/
def apply_defaults (attrs : Attrs) (defaults : List (String × PyValue)) : Attrs :=
  defaults.foldl (fun a p => if (a p.1).isSome then a else set_attr a p.1 p.2) attrs

/-- The second loop of `BaseStorage.__init__`: for each explicit override, raise
`ImproperlyConfigured` naming the key and the adapter class when the key is not
among the recognized defaults, else set the attribute. -/
def apply_overrides (defaults : List (String × PyValue)) (cls : String)
    (attrs : Attrs) : List (String × PyValue) → Except ConfigError Attrs
  | [] => .ok attrs
  | (name, value) :: rest =>
    if (defaults.lookup name).isSome then
      apply_overrides defaults cls (set_attr attrs name value) rest
    else .error (.invalidSetting name cls)

/-- `BaseStorage.__init__(**overrides)`: resolve the defaults onto a fresh
instance, apply the overrides, then check the credentials: when `cloud_name`,
`api_key` or `api_secret` is falsy, construction still succeeds if the
`CLOUDINARY_URL` environment variable is truthy and raises the
missing-credentials error otherwise; with all three truthy the SDK is configured
globally (a side effect outside this model) and construction succeeds. -/
def base_init (env : String → Option String)
    (user_settings : List (String × PyValue)) (base_dir media_url cls : String)
    (overrides : List (String × PyValue)) : Except ConfigError Attrs :=
  let default_settings := get_default_settings env user_settings base_dir media_url
  let attrs0 := apply_defaults (fun _ => none) default_settings
  match apply_overrides default_settings cls attrs0 overrides with
  | .error e => .error e
  | .ok attrs =>
    if ((attrs "cloud_name").getD .none_).truthy &&
       ((attrs "api_key").getD .none_).truthy &&
       ((attrs "api_secret").getD .none_).truthy then
      .ok attrs
    else if (env_value env "CLOUDINARY_URL").truthy then
      .ok attrs
    else
      .error (.missingCredentials missing_credentials_message)

/-- Whether a modelled Python call returned normally (no exception). -/
def is_ok {ε α : Type} : Except ε α → Bool
  | .ok _ => true
  | .error _ => false

/-! Hashed/manifest adapter (`storage.py`): manifest persistence and
post-processing. -/

/-- A JSON value, as far as the manifest payload needs: strings and objects.
The payload `json.dumps` serializes and a later `json.loads` decodes are
identified with this value (the byte-level round trip is the json library
contract, outside this model). -/
inductive Json where
  | str : String → Json
  | obj : List (String × Json) → Json

/-- Field lookup in a JSON object. -/
def json_field (j : Json) (key : String) : Option Json :=
  match j with
  | .str _ => none
  | .obj fields => fields.lookup key

/-- Modelled from the spec: Django `HashedFilesMixin.clean_name`, borrowed by the
mixin as a function object but not part of this repository; per the spec it
forward-slash-normalizes a path (backslashes become slashes). -/
def clean_name_str (s : String) : String :=
  String.map (fun c => if c = '\\' then '/' else c) s

/-- Python dictionary update `d[k] = v` on an insertion-ordered dictionary. -/
def dict_set (d : List (String × String)) (k v : String) : List (String × String) :=
  if d.any (fun p => p.1 = k) then
    d.map (fun p => if p.1 = k then (k, v) else p)
  else d ++ [(k, v)]

/-- `HashCloudinaryMixin.add_unix_path_keys_to_paths(paths)`: iterate over a copy
of the keys; every backslash-containing key is duplicated under its
forward-slash-normalized key.  (The value read for such a key is its original
value: the keys written never contain a backslash, so they never overwrite a
backslash-containing key.) -/
def add_unix_path_keys_to_paths (paths : List (String × String)) :
    List (String × String) :=
  paths.foldl
    (fun acc p =>
      if p.1.contains '\\' then dict_set acc (clean_name_str p.1) p.2 else acc)
    paths

/-- The state the manifest logic acts on: the in-memory hashed-files map
(`self.hashed_files`, kept insertion-ordered), the configured manifest version
(`self.manifest_version`, a string in Django), the content of the manifest file
in the manifest storage (`None` when the file is absent), and whether the
process runs on Windows (`os.name == nt`). -/
structure ManifestState where
  hashed_files : List (String × String)
  manifest_version : String
  manifest_file : Option Json
  os_is_nt : Bool

/-- The delete step of `HashCloudinaryMixin.save_manifest`: when the manifest
storage holds a manifest file, delete it. -/
def save_manifest_after_delete (s : ManifestState) : ManifestState :=
  if s.manifest_file.isSome then { s with manifest_file := none } else s

/-- The JSON object `{key: str(value)}` for a hashed-files map. -/
def paths_json (paths : List (String × String)) : Json :=
  .obj (paths.map (fun p => (p.1, .str p.2)))

/-- `HashCloudinaryMixin.save_manifest()`: build the payload
`{paths: self.hashed_files, version: self.manifest_version}`; on Windows
`add_unix_path_keys_to_paths` mutates `self.hashed_files` in place (the payload
aliases it); delete any existing manifest file; serialize the payload and write
it through the manifest storage. -/
def save_manifest (s : ManifestState) : ManifestState :=
  let paths := if s.os_is_nt then add_unix_path_keys_to_paths s.hashed_files
               else s.hashed_files
  let payload := Json.obj [("paths", paths_json paths),
                          ("version", .str s.manifest_version)]
  let s1 := save_manifest_after_delete { s with hashed_files := paths }
  { s1 with manifest_file := some payload }

/-- `HashCloudinaryMixin.read_manifest()`: read and decode the manifest file; the
`IOError` of a missing file yields `None`. -/
def read_manifest (s : ManifestState) : Option Json :=
  s.manifest_file

/-- The slice of an adapter instance `HashCloudinaryMixin.post_process` mutates:
its `exists` method (a function attribute after the monkey-patch). -/
structure StorageObj where
  exists_impl : String → Bool

/-- `HashCloudinaryMixin.post_process(paths)`: remember the original `exists`,
replace it by `lambda name: False`, yield every response of the framework
post-processing run (`inner_yields`, with the instance state in effect at each
yield), and restore `exists` once the run is exhausted.  The result pairs the
per-yield instance states with the final instance state. -/
def post_process {α : Type} (self : StorageObj) (inner_yields : List α) :
    List (StorageObj × α) × StorageObj :=
  let original_exists := self.exists_impl
  let patched : StorageObj := { exists_impl := fun _ => false }
  (inner_yields.map (fun r => (patched, r)),
   { patched with exists_impl := original_exists })

/-! Helper lemmas about the Python-string model. -/

/-- Python `str.split` never returns an empty list. -/
theorem py_split_ne_nil (sep : Char) : ∀ s : PyStr, py_split sep s ≠ []
  | [] => by simp [py_split]
  | c :: rest => by
    simp only [py_split]
    split
    · simp
    · split <;> simp

/-- Splitting a concatenation around an occurrence of the separator splits each
side separately. -/
theorem py_split_append (sep : Char) (xs ys : PyStr) :
    py_split sep (xs ++ sep :: ys) = py_split sep xs ++ py_split sep ys := by
  induction xs with
  | nil => simp [py_split]
  | cons c xs ih =>
    by_cases hc : c = sep
    · subst hc
      simp [py_split, ih]
    · simp only [List.cons_append, py_split, if_neg hc, List.append_eq]
      rw [ih]
      cases h : py_split sep xs with
      | nil => exact absurd h (py_split_ne_nil sep xs)
      | cons g gs => simp

/-- Splitting a string that does not contain the separator gives it back whole. -/
theorem py_split_eq_single (sep : Char) (s : PyStr) (h : sep ∉ s) :
    py_split sep s = [s] := by
  induction s with
  | nil => simp [py_split]
  | cons c rest ih =>
    simp only [List.mem_cons, not_or] at h
    have hc : ¬ c = sep := fun hcc => h.1 hcc.symm
    simp [py_split, hc, ih h.2]

/-- A name without a dot has no extension. -/
theorem get_file_extension_no_dot (name : PyStr) (h : '.' ∉ name) :
    get_file_extension name = none := by
  simp [get_file_extension, py_split_eq_single '.' name h]

/-- The extension of a name ending in a dot and a dot-free segment is that
segment, lowercased. -/
theorem get_file_extension_last (base ext : PyStr) (h : '.' ∉ ext) :
    get_file_extension (base ++ '.' :: ext) = some (lower ext) := by
  have hsplit := py_split_append '.' base ext
  rw [py_split_eq_single '.' ext h] at hsplit
  have hne : py_split '.' base ≠ [] := py_split_ne_nil '.' base
  have hlen : 1 ≤ (py_split '.' base).length := List.length_pos.mpr hne
  simp only [get_file_extension, hsplit, List.length_append, List.length_cons,
    List.length_nil]
  rw [if_neg (by omega), List.getLastD_concat]

/-- C3: resource-type inference.  The extension is the lowercase last dot-delimited
segment (none when the name has no dot); with the configured default extension
sets, a name whose extension is in the image set is classified image, in the
video set video, and raw otherwise; `_get_resource_type` maps `a.b.PNG` to the
image type and `noext` to the adapter default (raw); classification of an
extension is case-insensitive. -/
theorem C3_resource_type_inference :
    (∀ name : PyStr, '.' ∉ name →
      get_file_extension name = none ∧
      get_resource_type static_images_extensions_default
        static_videos_extensions_default name = RESOURCE_TYPE_RAW) ∧
    (∀ base ext : PyStr, '.' ∉ ext →
      get_file_extension (base ++ '.' :: ext) = some (lower ext)) ∧
    (∀ name e, get_file_extension name = some e →
      (e ∈ static_images_extensions_default →
        get_resource_type static_images_extensions_default
          static_videos_extensions_default name = RESOURCE_TYPE_IMAGE) ∧
      (e ∈ static_videos_extensions_default →
        get_resource_type static_images_extensions_default
          static_videos_extensions_default name = RESOURCE_TYPE_VIDEO) ∧
      (e ∉ static_images_extensions_default →
        e ∉ static_videos_extensions_default →
        get_resource_type static_images_extensions_default
          static_videos_extensions_default name = RESOURCE_TYPE_RAW)) ∧
    get_resource_type static_images_extensions_default
      static_videos_extensions_default (pystr "a.b.PNG") = RESOURCE_TYPE_IMAGE ∧
    get_resource_type static_images_extensions_default
      static_videos_extensions_default (pystr "noext") = RESOURCE_TYPE_RAW ∧
    (∀ base ext1 ext2 : PyStr, '.' ∉ ext1 → '.' ∉ ext2 → lower ext1 = lower ext2 →
      get_resource_type static_images_extensions_default
        static_videos_extensions_default (base ++ '.' :: ext1) =
      get_resource_type static_images_extensions_default
        static_videos_extensions_default (base ++ '.' :: ext2)) := by
  have hdisj : ∀ e ∈ static_videos_extensions_default,
      e ∉ static_images_extensions_default := by decide
  refine ⟨?_, ?_, ?_, by decide, by decide, ?_⟩
  · intro name h
    exact ⟨get_file_extension_no_dot name h,
      by simp [get_resource_type, get_file_extension_no_dot name h]⟩
  · intro base ext h
    exact get_file_extension_last base ext h
  · intro name e he
    refine ⟨fun hi => by simp [get_resource_type, he, hi], fun hv => ?_,
      fun h1 h2 => by simp [get_resource_type, he, h1, h2]⟩
    simp [get_resource_type, he, hv, hdisj e hv]
  · intro base ext1 ext2 h1 h2 h12
    simp only [get_resource_type, get_file_extension_last _ _ h1,
      get_file_extension_last _ _ h2, h12]

/-- C3 witness: the theorem applied at concrete inputs, discharging the
dot-freeness and membership hypotheses there. -/
theorem C3_witness :
    get_file_extension (pystr "noext") = none ∧
    get_file_extension (pystr "a.b" ++ '.' :: pystr "PNG") = some (lower (pystr "PNG")) ∧
    get_resource_type static_images_extensions_default
      static_videos_extensions_default (pystr "v.mp4") = RESOURCE_TYPE_VIDEO ∧
    get_resource_type static_images_extensions_default
      static_videos_extensions_default (pystr "x" ++ '.' :: pystr "GIF") =
    get_resource_type static_images_extensions_default
      static_videos_extensions_default (pystr "x" ++ '.' :: pystr "gif") :=
  ⟨(C3_resource_type_inference.1 (pystr "noext") (by decide)).1,
   C3_resource_type_inference.2.1 (pystr "a.b") (pystr "PNG") (by decide),
   ((C3_resource_type_inference.2.2.1 (pystr "v.mp4") (pystr "mp4")
      (by decide)).2.1 (by decide)),
   C3_resource_type_inference.2.2.2.2.2 (pystr "x") (pystr "GIF") (pystr "gif")
     (by decide) (by decide) (by decide)⟩

/-- C4: extension stripping.  For any configured extension sets: a name classified
raw is stored unchanged; a name of the shape `base.ext` classified image or video
is stored as `base`, with the trailing dot and extension removed. -/
theorem C4_extension_stripping :
    (∀ (imgs vids : List PyStr) (name : PyStr),
      get_resource_type imgs vids name = RESOURCE_TYPE_RAW →
      remove_extension_for_non_raw_file imgs vids name = name) ∧
    (∀ (imgs vids : List PyStr) (base ext : PyStr), '.' ∉ ext →
      (get_resource_type imgs vids (base ++ '.' :: ext) = RESOURCE_TYPE_IMAGE ∨
       get_resource_type imgs vids (base ++ '.' :: ext) = RESOURCE_TYPE_VIDEO) →
      remove_extension_for_non_raw_file imgs vids (base ++ '.' :: ext) = base) := by
  constructor
  · intro imgs vids name h
    simp [remove_extension_for_non_raw_file, h]
  · intro imgs vids base ext hdot hcls
    have hraw : get_resource_type imgs vids (base ++ '.' :: ext) ≠ RESOURCE_TYPE_RAW := by
      rcases hcls with h | h <;> rw [h] <;> decide
    have hext := get_file_extension_last base ext hdot
    simp only [remove_extension_for_non_raw_file, if_neg hraw, hext, Option.getD_some]
    have hlow : (lower ext).length = ext.length := List.length_map ext Char.toLower
    have hlen : (base ++ '.' :: ext).length = base.length + (ext.length + 1) := by
      simp [List.length_append]
    rw [hlen, hlow, Nat.add_sub_cancel]
    exact List.take_left base ('.' :: ext)

/-- C4 witness: the theorem applied at concrete inputs (a raw text file kept
unchanged, an image name stripped of its extension). -/
theorem C4_witness :
    remove_extension_for_non_raw_file static_images_extensions_default
      static_videos_extensions_default (pystr "readme.txt") = pystr "readme.txt" ∧
    remove_extension_for_non_raw_file static_images_extensions_default
      static_videos_extensions_default (pystr "img" ++ '.' :: pystr "png") =
      pystr "img" :=
  ⟨C4_extension_stripping.1 _ _ (pystr "readme.txt") (by decide),
   C4_extension_stripping.2 _ _ (pystr "img") (pystr "png") (by decide)
     (Or.inl (by decide))⟩

/-- C8: `get_available_name` returns the name unchanged when no maximum length is
given, and otherwise its truncation to the first `max_length` characters, whose
length is at most `max_length` and which is an initial segment of the name; the
result depends on nothing but the name and the bound (no collision avoidance). -/
theorem C8_get_available_name :
    (∀ name : PyStr, get_available_name name none = name) ∧
    (∀ (name : PyStr) (m : Nat),
      get_available_name name (some m) = name.take m ∧
      (get_available_name name (some m)).length ≤ m ∧
      ∃ rest, name = get_available_name name (some m) ++ rest) := by
  refine ⟨fun name => rfl, fun name m => ⟨rfl, ?_, name.drop m, (name.take_append_drop m).symm⟩⟩
  simp [get_available_name, List.length_take]

/-- C7 counterexample: the claim says any non-success status other than 404 makes
`size` fail with a transport error, but `size` has no `raise_for_status` call: on
a 500 response it returns `None` (the unknown value) instead of raising. -/
theorem C7_counterexample_size_500 :
    base_size (fun u => u)
      (fun _ => { status := 500, etag := none, content_length := some 123 })
      [] (pystr "a") = Except.ok none := rfl

/-- C7 amended: `exists` and `size` issue a HEAD request to the derived public URL;
a 404 makes `exists` return false and `size` return the unknown value (`None`);
`exists` fails with a transport error on any other status in 400..599 and
returns true otherwise, while `size` never raises for a status: on a 200 it
returns the integer value of the content-length header (a missing header is a
`KeyError`) and on every non-200 status it returns `None`. -/
theorem C7_exists_size_head_dispatch :
    ∀ (cloudinary_url : PyStr → PyStr) (head : PyStr → HeadResponse)
      (pfx name : PyStr),
      ((head (get_url_of cloudinary_url pfx name)).status = 404 →
        base_exists cloudinary_url head pfx name = .ok false ∧
        base_size cloudinary_url head pfx name = .ok none) ∧
      (400 ≤ (head (get_url_of cloudinary_url pfx name)).status →
        (head (get_url_of cloudinary_url pfx name)).status < 600 →
        (head (get_url_of cloudinary_url pfx name)).status ≠ 404 →
        base_exists cloudinary_url head pfx name =
          .error (.httpError (head (get_url_of cloudinary_url pfx name)).status)) ∧
      ((head (get_url_of cloudinary_url pfx name)).status < 400 ∨
        600 ≤ (head (get_url_of cloudinary_url pfx name)).status →
        base_exists cloudinary_url head pfx name = .ok true) ∧
      (∀ n : Int, (head (get_url_of cloudinary_url pfx name)).status = 200 →
        (head (get_url_of cloudinary_url pfx name)).content_length = some n →
        base_size cloudinary_url head pfx name = .ok (some n)) ∧
      ((head (get_url_of cloudinary_url pfx name)).status = 200 →
        (head (get_url_of cloudinary_url pfx name)).content_length = none →
        base_size cloudinary_url head pfx name = .error .keyError) ∧
      ((head (get_url_of cloudinary_url pfx name)).status ≠ 200 →
        base_size cloudinary_url head pfx name = .ok none) := by
  intro cloudinary_url head pfx name
  refine ⟨fun h404 => ⟨?_, ?_⟩, fun hge hlt hne => ?_, fun hout => ?_,
    fun n h200 hcl => ?_, fun h200 hcl => ?_, fun hne => ?_⟩
  · simp [base_exists, h404]
  · simp [base_size, h404]
  · simp only [base_exists]
    rw [if_neg hne, if_pos ⟨hge, hlt⟩]
  · have hne : (head (get_url_of cloudinary_url pfx name)).status ≠ 404 := by omega
    have hnot : ¬ (400 ≤ (head (get_url_of cloudinary_url pfx name)).status ∧
        (head (get_url_of cloudinary_url pfx name)).status < 600) := by omega
    simp only [base_exists]
    rw [if_neg hne, if_neg hnot]
  · simp [base_size, h200, hcl]
  · simp [base_size, h200, hcl]
  · simp [base_size, hne]

/-- C7 witness: the amended theorem applied at concrete responses (a 404, a 500,
a 200 with a content-length of 7, and a 301). -/
theorem C7_witness :
    base_exists (fun u => u) (fun _ => { status := 404, etag := none, content_length := none })
      [] (pystr "a") = .ok false ∧
    base_size (fun u => u) (fun _ => { status := 404, etag := none, content_length := none })
      [] (pystr "a") = .ok none ∧
    base_exists (fun u => u) (fun _ => { status := 500, etag := none, content_length := none })
      [] (pystr "a") = .error (.httpError 500) ∧
    base_exists (fun u => u) (fun _ => { status := 200, etag := none, content_length := some 7 })
      [] (pystr "a") = .ok true ∧
    base_size (fun u => u) (fun _ => { status := 200, etag := none, content_length := some 7 })
      [] (pystr "a") = .ok (some 7) ∧
    base_size (fun u => u) (fun _ => { status := 301, etag := none, content_length := none })
      [] (pystr "a") = .ok none :=
  ⟨(C7_exists_size_head_dispatch _ _ [] (pystr "a") |>.1 rfl).1,
   (C7_exists_size_head_dispatch _ _ [] (pystr "a") |>.1 rfl).2,
   C7_exists_size_head_dispatch _ _ [] (pystr "a") |>.2.1 (by decide) (by decide) (by decide),
   C7_exists_size_head_dispatch _ _ [] (pystr "a") |>.2.2.1 (Or.inl (by decide)),
   C7_exists_size_head_dispatch _ _ [] (pystr "a") |>.2.2.2.1 7 rfl rfl,
   C7_exists_size_head_dispatch _ _ [] (pystr "a") |>.2.2.2.2.2 (by decide)⟩

/-- C1: upload deduplication in `StaticCloudinaryStorage._save`.  When the HEAD
request for the cleaned name succeeds (200) and the unquoted ETag header value
starts with the locally computed content hash, the upload is skipped and the
prefixed name returned; when the HEAD request returns 404, or the unquoted ETag
does not start with that hash, the upload is performed through the base
adapter's save path (`base_save`, dispatching to the static `_upload`). -/
theorem C1_static_save_dedup :
    ∀ (file_hash : PyStr → PyStr → PyStr) (clean_name cloudinary_url : PyStr → PyStr)
      (head : PyStr → HeadResponse) (imgs vids : List PyStr)
      (upload_public_id : UploadCall → PyStr) (pfx name content : PyStr),
      ((head (get_url_of cloudinary_url pfx (clean_name name))).status = 200 →
        ∀ e t : PyStr,
          (head (get_url_of cloudinary_url pfx (clean_name name))).etag = some e →
          (py_split '"' e)[1]? = some t →
          (file_hash (clean_name name) content).isPrefixOf t = true →
          static_save file_hash clean_name cloudinary_url head imgs vids
            upload_public_id pfx name content =
            .ok { name := prepend_prefix pfx (clean_name name), upload := none }) ∧
      ((head (get_url_of cloudinary_url pfx (clean_name name))).status = 404 →
        static_save file_hash clean_name cloudinary_url head imgs vids
          upload_public_id pfx name content =
          .ok { name := prepend_prefix pfx (clean_name name),
                upload := some (base_save (static_upload imgs vids) upload_public_id
                  pfx (clean_name name) content).2 }) ∧
      ((head (get_url_of cloudinary_url pfx (clean_name name))).status ≠ 404 →
        ∀ e t : PyStr,
          (head (get_url_of cloudinary_url pfx (clean_name name))).etag = some e →
          (py_split '"' e)[1]? = some t →
          (file_hash (clean_name name) content).isPrefixOf t = false →
          static_save file_hash clean_name cloudinary_url head imgs vids
            upload_public_id pfx name content =
            .ok { name := prepend_prefix pfx (clean_name name),
                  upload := some (base_save (static_upload imgs vids) upload_public_id
                    pfx (clean_name name) content).2 }) := by
  intro file_hash clean_name cloudinary_url head imgs vids upload_public_id pfx name content
  refine ⟨fun h200 e t he ht hpre => ?_, fun h404 => ?_, fun h404 e t he ht hpre => ?_⟩
  · have hne : (head (get_url_of cloudinary_url pfx (clean_name name))).status ≠ 404 := by
      omega
    have hex : exists_with_etag file_hash cloudinary_url head pfx (clean_name name)
        content = .ok true := by
      simp [exists_with_etag, hne, he, ht, hpre]
    simp [static_save, hex]
  · have hex : exists_with_etag file_hash cloudinary_url head pfx (clean_name name)
        content = .ok false := by
      simp [exists_with_etag, h404]
    simp [static_save, hex]
  · have hex : exists_with_etag file_hash cloudinary_url head pfx (clean_name name)
        content = .ok false := by
      simp [exists_with_etag, h404, he, ht, hpre]
    simp [static_save, hex]

/-- C1 witness: the theorem applied at concrete inputs for all three cases: a 200
response whose ETag starts with the hash (skip), a 404 response (upload), and a
200 response whose ETag does not start with the hash (upload). -/
theorem C1_witness :
    static_save (fun _ _ => pystr "ab") (fun n => n) (fun u => u)
      (fun _ => { status := 200, etag := some (pystr "\"abc\""), content_length := none })
      [] [] (fun c => c.public_id) [] (pystr "x") (pystr "y") =
      .ok { name := prepend_prefix [] (pystr "x"), upload := none } ∧
    static_save (fun _ _ => pystr "ab") (fun n => n) (fun u => u)
      (fun _ => { status := 404, etag := none, content_length := none })
      [] [] (fun c => c.public_id) [] (pystr "x") (pystr "y") =
      .ok { name := prepend_prefix [] (pystr "x"),
            upload := some (base_save (static_upload [] []) (fun c => c.public_id)
              [] (pystr "x") (pystr "y")).2 } ∧
    static_save (fun _ _ => pystr "zz") (fun n => n) (fun u => u)
      (fun _ => { status := 200, etag := some (pystr "\"abc\""), content_length := none })
      [] [] (fun c => c.public_id) [] (pystr "x") (pystr "y") =
      .ok { name := prepend_prefix [] (pystr "x"),
            upload := some (base_save (static_upload [] []) (fun c => c.public_id)
              [] (pystr "x") (pystr "y")).2 } :=
  ⟨(C1_static_save_dedup (fun _ _ => pystr "ab") (fun n => n) (fun u => u)
      (fun _ => { status := 200, etag := some (pystr "\"abc\""), content_length := none })
      [] [] (fun c => c.public_id) [] (pystr "x") (pystr "y")).1 rfl
      (pystr "\"abc\"") (pystr "abc") rfl (by decide) (by decide),
   (C1_static_save_dedup (fun _ _ => pystr "ab") (fun n => n) (fun u => u)
      (fun _ => { status := 404, etag := none, content_length := none })
      [] [] (fun c => c.public_id) [] (pystr "x") (pystr "y")).2.1 rfl,
   (C1_static_save_dedup (fun _ _ => pystr "zz") (fun n => n) (fun u => u)
      (fun _ => { status := 200, etag := some (pystr "\"abc\""), content_length := none })
      [] [] (fun c => c.public_id) [] (pystr "x") (pystr "y")).2.2 (by decide)
      (pystr "\"abc\"") (pystr "abc") rfl (by decide) (by decide)⟩

/-- C10: `StaticCloudinaryStorage._save` always returns the prefix-prepended
cleaned name: whenever it returns at all, the returned name is
`_prepend_prefix(clean_name(name))`, the result is identical for any two remote
upload-response functions (the return value never depends on the upload
response), and, in contrast, the base adapter's `_save` returns the
remote-assigned public id taken from the upload response. -/
theorem C10_static_save_return_value :
    (∀ (file_hash : PyStr → PyStr → PyStr) (clean_name cloudinary_url : PyStr → PyStr)
       (head : PyStr → HeadResponse) (imgs vids : List PyStr)
       (upload_public_id : UploadCall → PyStr) (pfx name content : PyStr)
       (res : StaticSaveResult),
      static_save file_hash clean_name cloudinary_url head imgs vids
        upload_public_id pfx name content = .ok res →
      res.name = prepend_prefix pfx (clean_name name)) ∧
    (∀ (file_hash : PyStr → PyStr → PyStr) (clean_name cloudinary_url : PyStr → PyStr)
       (head : PyStr → HeadResponse) (imgs vids : List PyStr)
       (upid1 upid2 : UploadCall → PyStr) (pfx name content : PyStr),
      static_save file_hash clean_name cloudinary_url head imgs vids upid1
        pfx name content =
      static_save file_hash clean_name cloudinary_url head imgs vids upid2
        pfx name content) ∧
    (∀ (upload : PyStr → PyStr → UploadCall) (upload_public_id : UploadCall → PyStr)
       (pfx name content : PyStr),
      (base_save upload upload_public_id pfx name content).1 =
        upload_public_id (upload ( prepend_prefix pfx (normalise_name name)) content)) := by
  refine ⟨?_, ?_, fun upload upload_public_id pfx name content => rfl⟩
  · intro file_hash clean_name cloudinary_url head imgs vids upload_public_id
      pfx name content res h
    simp only [static_save] at h
    split at h
    · exact absurd h (by simp)
    · cases h
      rfl
    · cases h
      rfl
  · intro file_hash clean_name cloudinary_url head imgs vids upid1 upid2 pfx name content
    simp only [static_save]
    cases hex : exists_with_etag file_hash cloudinary_url head pfx (clean_name name)
        content with
    | error e => rfl
    | ok b => cases b <;> simp [base_save]

/-- C10 witness: the theorem applied at a concrete input on the skip path, and the
upload-response independence at two distinct response functions. -/
theorem C10_witness :
    ({ name := prepend_prefix [] (pystr "x"), upload := none } : StaticSaveResult).name =
      prepend_prefix [] (pystr "x") ∧
    static_save (fun _ _ => pystr "ab") (fun n => n) (fun u => u)
      (fun _ => { status := 200, etag := some (pystr "\"abc\""), content_length := none })
      [] [] (fun c => c.public_id) [] (pystr "x") (pystr "y") =
    static_save (fun _ _ => pystr "ab") (fun n => n) (fun u => u)
      (fun _ => { status := 200, etag := some (pystr "\"abc\""), content_length := none })
      [] [] (fun _ => pystr "other") [] (pystr "x") (pystr "y") :=
  ⟨C10_static_save_return_value.1 (fun _ _ => pystr "ab") (fun n => n) (fun u => u)
      (fun _ => { status := 200, etag := some (pystr "\"abc\""), content_length := none })
      [] [] (fun c => c.public_id) [] (pystr "x") (pystr "y")
      { name := prepend_prefix [] (pystr "x"), upload := none } rfl,
   C10_static_save_return_value.2.1 (fun _ _ => pystr "ab") (fun n => n) (fun u => u)
      (fun _ => { status := 200, etag := some (pystr "\"abc\""), content_length := none })
      [] [] (fun c => c.public_id) (fun _ => pystr "other") [] (pystr "x") (pystr "y")⟩

/-- C2: manifest round trip.  Off Windows, `save_manifest` then `read_manifest`
yields the JSON document whose `paths` field is exactly the in-memory
hashed-name map and whose `version` field is the configured manifest version
(on any OS the `paths` field equals the post-save in-memory map); the delete
step of `save_manifest` removes any prior manifest file before the write; and
`read_manifest` on a missing manifest file returns `None` rather than raising. -/
theorem C2_manifest_round_trip :
    (∀ s : ManifestState, s.os_is_nt = false →
      read_manifest (save_manifest s) =
        some (Json.obj [("paths", paths_json s.hashed_files),
                        ("version", Json.str s.manifest_version)])) ∧
    (∀ (s : ManifestState) (j : Json), read_manifest (save_manifest s) = some j →
      json_field j "paths" = some (paths_json (save_manifest s).hashed_files) ∧
      json_field j "version" = some (Json.str s.manifest_version)) ∧
    (∀ s : ManifestState, (save_manifest_after_delete s).manifest_file = none) ∧
    (∀ s : ManifestState, s.manifest_file = none → read_manifest s = none) := by
  refine ⟨fun s h => ?_, fun s j hj => ?_, fun s => ?_, fun s h => ?_⟩
  · simp [save_manifest, read_manifest, h]
  · have hread : read_manifest (save_manifest s) =
        some (Json.obj [("paths", paths_json
            (if s.os_is_nt then add_unix_path_keys_to_paths s.hashed_files
             else s.hashed_files)),
          ("version", Json.str s.manifest_version)]) := rfl
    have hhf : (save_manifest s).hashed_files =
        (if s.os_is_nt then add_unix_path_keys_to_paths s.hashed_files
         else s.hashed_files) := by
      simp only [save_manifest, save_manifest_after_delete]
      split <;> rfl
    rw [hread] at hj
    cases hj
    rw [hhf]
    simp [json_field, List.lookup]
  · simp only [save_manifest_after_delete]
    split
    · rfl
    · next h => simpa using h
  · simp [read_manifest, h]

/-- C2 witness: the theorem applied at a concrete state holding a prior manifest
file, and at a concrete state with no manifest file. -/
theorem C2_witness :
    read_manifest (save_manifest
      { hashed_files := [("a.css", "a.deadbeef.css")], manifest_version := "1.1",
        manifest_file := some (Json.str "old"), os_is_nt := false }) =
      some (Json.obj [("paths", paths_json [("a.css", "a.deadbeef.css")]),
                      ("version", Json.str "1.1")]) ∧
    (save_manifest_after_delete
      { hashed_files := [("a.css", "a.deadbeef.css")], manifest_version := "1.1",
        manifest_file := some (Json.str "old"), os_is_nt := false }).manifest_file =
      none ∧
    read_manifest
      { hashed_files := [], manifest_version := "1.1",
        manifest_file := none, os_is_nt := false } = none :=
  ⟨C2_manifest_round_trip.1
      { hashed_files := [("a.css", "a.deadbeef.css")], manifest_version := "1.1",
        manifest_file := some (Json.str "old"), os_is_nt := false } rfl,
   C2_manifest_round_trip.2.2.1
      { hashed_files := [("a.css", "a.deadbeef.css")], manifest_version := "1.1",
        manifest_file := some (Json.str "old"), os_is_nt := false },
   C2_manifest_round_trip.2.2.2
      { hashed_files := [], manifest_version := "1.1",
        manifest_file := none, os_is_nt := false } rfl⟩

/-- C9: while the `post_process` generator is being consumed, the instance state
in effect at every yield has the `exists` method answering false for every name;
once the generator is exhausted, the final instance state has `exists` restored
to the original behavior. -/
theorem C9_post_process_disables_exists :
    ∀ (α : Type) (self : StorageObj) (inner_yields : List α),
      (∀ p ∈ (post_process self inner_yields).1, ∀ name : String,
        p.1.exists_impl name = false) ∧
      (post_process self inner_yields).2.exists_impl = self.exists_impl := by
  intro α self inner_yields
  refine ⟨fun p hp name => ?_, rfl⟩
  simp only [post_process, List.mem_map] at hp
  obtain ⟨r, _, rfl⟩ := hp
  rfl

/-- C9 witness: the theorem applied to a concrete adapter whose original `exists`
always answers true and a one-element run: at the yield `exists` answers false,
and after exhaustion it is the original function again. -/
theorem C9_witness :
    ((({ exists_impl := fun _ => false } : StorageObj), (0 : Nat)).1.exists_impl "x"
      = false) ∧
    (post_process { exists_impl := fun _ => true } [(0 : Nat)]).2.exists_impl =
      (fun _ => true) :=
  ⟨(C9_post_process_disables_exists Nat { exists_impl := fun _ => true } [0]).1
      (({ exists_impl := fun _ => false } : StorageObj), (0 : Nat))
      (by simp [post_process]) "x",
   (C9_post_process_disables_exists Nat { exists_impl := fun _ => true } [0]).2⟩

/-! Helper lemmas about the settings resolver. -/

/-- When every override key is recognized, the override loop returns normally. -/
theorem apply_overrides_ok (defaults : List (String × PyValue)) (cls : String) :
    ∀ (ovs : List (String × PyValue)) (attrs : Attrs),
      (∀ k v, (k, v) ∈ ovs → ((defaults.lookup k)).isSome) →
      ∃ a, apply_overrides defaults cls attrs ovs = .ok a := by
  intro ovs
  induction ovs with
  | nil => exact fun attrs _ => ⟨attrs, rfl⟩
  | cons kv rest ih =>
    intro attrs h
    obtain ⟨k, v⟩ := kv
    have hk := h k v (List.mem_cons_self _ _)
    simp only [apply_overrides, hk, if_true]
    exact ih (set_attr attrs k v) (fun k2 v2 hm => h k2 v2 (List.mem_cons_of_mem _ hm))

/-- The override loop raises the invalid-setting error at the first unrecognized
key, naming that key and the adapter class. -/
theorem apply_overrides_first_unknown (defaults : List (String × PyValue))
    (cls : String) :
    ∀ (pre : List (String × PyValue)) (attrs : Attrs) (k : String) (v : PyValue)
      (rest : List (String × PyValue)),
      (∀ k2 v2, (k2, v2) ∈ pre → ((defaults.lookup k2)).isSome) →
      defaults.lookup k = none →
      apply_overrides defaults cls attrs (pre ++ (k, v) :: rest) =
        .error (.invalidSetting k cls) := by
  intro pre
  induction pre with
  | nil =>
    intro attrs k v rest _ hk
    simp [apply_overrides, hk]
  | cons kv pre ih =>
    intro attrs k v rest hpre hk
    obtain ⟨k0, v0⟩ := kv
    have h0 := hpre k0 v0 (List.mem_cons_self _ _)
    simp only [List.cons_append, apply_overrides, h0, if_true]
    exact ih _ k v rest (fun k2 v2 hm => hpre k2 v2 (List.mem_cons_of_mem _ hm)) hk

/-- C6: unknown override keys.  Construction with an override list containing an
unrecognized key (the first such key `k`, all keys before it recognized) fails
with the configuration error naming `k` and the adapter class; construction with
only recognized keys never raises an invalid-setting error. -/
theorem C6_unknown_setting_key :
    ∀ (env : String → Option String) (us : List (String × PyValue))
      (bd mu cls : String) (ovs : List (String × PyValue)),
      (∀ (pre : List (String × PyValue)) (k : String) (v : PyValue)
         (rest : List (String × PyValue)),
        ovs = pre ++ (k, v) :: rest →
        (∀ k2 v2, (k2, v2) ∈ pre →
          (((get_default_settings env us bd mu).lookup k2)).isSome) →
        (get_default_settings env us bd mu).lookup k = none →
        base_init env us bd mu cls ovs = .error (.invalidSetting k cls)) ∧
      ((∀ k v, (k, v) ∈ ovs →
          (((get_default_settings env us bd mu).lookup k)).isSome) →
        ∀ k c, base_init env us bd mu cls ovs ≠ .error (.invalidSetting k c)) := by
  intro env us bd mu cls ovs
  constructor
  · intro pre k v rest hovs hpre hk
    subst hovs
    simp only [base_init]
    rw [apply_overrides_first_unknown (get_default_settings env us bd mu) cls pre
      _ k v rest hpre hk]
  · intro hall k c
    obtain ⟨a, ha⟩ := apply_overrides_ok (get_default_settings env us bd mu) cls ovs
      (apply_defaults (fun _ => none) (get_default_settings env us bd mu)) hall
    simp only [base_init]
    rw [ha]
    dsimp only
    split
    · simp
    · split <;> simp

/-- C6 witness: the theorem applied to a concrete unknown key (failure naming the
key and class) and to a concrete recognized key (no invalid-setting error). -/
theorem C6_witness :
    base_init (fun _ => none) [] "b" "m" "BaseStorage" [("bogus", PyValue.str "1")] =
      .error (.invalidSetting "bogus" "BaseStorage") ∧
    base_init (fun _ => none) [] "b" "m" "BaseStorage" [("secure", PyValue.bool false)] ≠
      .error (.invalidSetting "secure" "BaseStorage") :=
  ⟨(C6_unknown_setting_key (fun _ => none) [] "b" "m" "BaseStorage"
      [("bogus", PyValue.str "1")]).1 [] "bogus" (PyValue.str "1") [] rfl
      (by simp) (by decide),
   (C6_unknown_setting_key (fun _ => none) [] "b" "m" "BaseStorage"
      [("secure", PyValue.bool false)]).2
      (by
        intro k v hm
        simp only [List.mem_singleton, Prod.mk.injEq] at hm
        obtain ⟨rfl, rfl⟩ := hm
        decide)
      "secure" "BaseStorage"⟩

/-- C5: credential validation at construction.  When the resolved credential
attributes are all empty (falsy) and the `CLOUDINARY_URL` environment variable
is unset or empty, construction fails with the configuration error whose message
describes all four credential-supply methods; each of the four methods alone
permits successful construction: fully populated explicit overrides, a fully
populated settings block, the three environment variables (with the settings
block not overriding them), or a nonempty `CLOUDINARY_URL`. -/
theorem C5_credentials :
    (∀ (env : String → Option String) (us : List (String × PyValue))
       (bd mu cls : String) (ovs : List (String × PyValue)) (a : Attrs),
      apply_overrides (get_default_settings env us bd mu) cls
          (apply_defaults (fun _ => none) (get_default_settings env us bd mu)) ovs =
        .ok a →
      ((a "cloud_name").getD .none_).truthy = false →
      ((a "api_key").getD .none_).truthy = false →
      ((a "api_secret").getD .none_).truthy = false →
      (env_value env "CLOUDINARY_URL").truthy = false →
      base_init env us bd mu cls ovs =
        .error (.missingCredentials missing_credentials_message)) ∧
    (∀ (env : String → Option String) (us : List (String × PyValue))
       (bd mu cls : String) (c k s : String),
      c ≠ "" → k ≠ "" → s ≠ "" →
      is_ok (base_init env us bd mu cls
        [("cloud_name", .str c), ("api_key", .str k), ("api_secret", .str s)]) = true) ∧
    (∀ (env : String → Option String) (us : List (String × PyValue))
       (bd mu cls : String) (c k s : String),
      List.lookup "CLOUD_NAME" us = some (PyValue.str c) → c ≠ "" →
      List.lookup "API_KEY" us = some (PyValue.str k) → k ≠ "" →
      List.lookup "API_SECRET" us = some (PyValue.str s) → s ≠ "" →
      is_ok (base_init env us bd mu cls []) = true) ∧
    (∀ (env : String → Option String) (us : List (String × PyValue))
       (bd mu cls : String) (c k s : String),
      env "CLOUDINARY_CLOUD_NAME" = some c → c ≠ "" →
      env "CLOUDINARY_API_KEY" = some k → k ≠ "" →
      env "CLOUDINARY_API_SECRET" = some s → s ≠ "" →
      List.lookup "CLOUD_NAME" us = none →
      List.lookup "API_KEY" us = none →
      List.lookup "API_SECRET" us = none →
      is_ok (base_init env us bd mu cls []) = true) ∧
    (∀ (env : String → Option String) (us : List (String × PyValue))
       (bd mu cls : String) (ovs : List (String × PyValue)) (u : String),
      env "CLOUDINARY_URL" = some u → u ≠ "" →
      (∀ k v, (k, v) ∈ ovs →
        (((get_default_settings env us bd mu).lookup k)).isSome) →
      is_ok (base_init env us bd mu cls ovs) = true) := by
  refine ⟨?_, ?_, ?_, ?_, ?_⟩
  · intro env us bd mu cls ovs a hovr h1 h2 h3 hurl
    simp only [base_init]
    rw [hovr]
    dsimp only
    simp [h1, hurl]
  · intro env us bd mu cls c k s hc hk hs
    simp [base_init, apply_overrides, apply_defaults, get_default_settings,
      set_attr, is_ok, PyValue.truthy, hc, hk, hs]
  · intro env us bd mu cls c k s hus1 hc hus2 hk hus3 hs
    simp [base_init, apply_overrides, apply_defaults, get_default_settings,
      set_attr, setting, is_ok, PyValue.truthy, hus1, hus2, hus3, hc, hk, hs]
  · intro env us bd mu cls c k s h1 hc h2 hk h3 hs hn1 hn2 hn3
    simp [base_init, apply_overrides, apply_defaults, get_default_settings,
      set_attr, setting, env_value, is_ok, PyValue.truthy, h1, h2, h3,
      hn1, hn2, hn3, hc, hk, hs]
  · intro env us bd mu cls ovs u hurl hu hall
    obtain ⟨a, ha⟩ := apply_overrides_ok (get_default_settings env us bd mu) cls ovs
      (apply_defaults (fun _ => none) (get_default_settings env us bd mu)) hall
    simp only [base_init]
    rw [ha]
    dsimp only
    split
    · rfl
    · simp [env_value, hurl, is_ok, PyValue.truthy, hu]

/-- C5 witness: the theorem applied at concrete configurations: no credentials at
all (failure with the four-method message), then each of the four supply methods
alone (success). -/
theorem C5_witness :
    base_init (fun _ => none) [] "b" "m" "C" [] =
      .error (.missingCredentials missing_credentials_message) ∧
    is_ok (base_init (fun _ => none) [] "b" "m" "C"
      [("cloud_name", .str "n"), ("api_key", .str "kk"), ("api_secret", .str "ss")]) =
      true ∧
    is_ok (base_init (fun _ => none)
      [("CLOUD_NAME", PyValue.str "n"), ("API_KEY", PyValue.str "kk"),
       ("API_SECRET", PyValue.str "ss")] "b" "m" "C" []) = true ∧
    is_ok (base_init
      (fun v => if v = "CLOUDINARY_CLOUD_NAME" then some "n"
        else if v = "CLOUDINARY_API_KEY" then some "kk"
        else if v = "CLOUDINARY_API_SECRET" then some "ss" else none)
      [] "b" "m" "C" []) = true ∧
    is_ok (base_init (fun v => if v = "CLOUDINARY_URL" then some "cloudinary://k" else none)
      [] "b" "m" "C" []) = true :=
  ⟨C5_credentials.1 (fun _ => none) [] "b" "m" "C" []
      (apply_defaults (fun _ => none) (get_default_settings (fun _ => none) [] "b" "m"))
      rfl (by decide) (by decide) (by decide) (by decide),
   C5_credentials.2.1 (fun _ => none) [] "b" "m" "C" "n" "kk" "ss"
      (by decide) (by decide) (by decide),
   C5_credentials.2.2.1 (fun _ => none)
      [("CLOUD_NAME", PyValue.str "n"), ("API_KEY", PyValue.str "kk"),
       ("API_SECRET", PyValue.str "ss")] "b" "m" "C" "n" "kk" "ss"
      (by decide) (by decide) (by decide) (by decide) (by decide) (by decide),
   C5_credentials.2.2.2.1
      (fun v => if v = "CLOUDINARY_CLOUD_NAME" then some "n"
        else if v = "CLOUDINARY_API_KEY" then some "kk"
        else if v = "CLOUDINARY_API_SECRET" then some "ss" else none)
      [] "b" "m" "C" "n" "kk" "ss" (by decide) (by decide) (by decide) (by decide)
      (by decide) (by decide) rfl rfl rfl,
   C5_credentials.2.2.2.2
      (fun v => if v = "CLOUDINARY_URL" then some "cloudinary://k" else none)
      [] "b" "m" "C" [] "cloudinary://k" (by decide) (by decide) (by simp)⟩
